import Mathlib

/-!
Shallow embedding of the metrics module of the repository (src/metrics.py).

Numeric model: numpy float values are modelled by `PyFloat`, an exact-rational
idealisation of floating point that keeps the special values the code relies
on: `nan`, `inf` and `ninf` (negative infinity).  Finite values are rationals,
so arithmetic is exact; the IEEE special-value rules that the code observably
depends on (NaN propagation, division by zero giving signed infinity, 0/0 and
inf - inf giving NaN, the mean of an empty array giving NaN) are modelled
explicitly.  Signed zero is not modelled.

Sequences are `List PyFloat`.  numpy operations that can raise (shape-mismatch
in broadcasting, boolean-mask indexing with a mask of the wrong length, a call
binding a keyword that the callee does not accept) return `Except PyErr`.
-/

set_option autoImplicit false

inductive PyErr where
  | valueError
  | typeError
  | indexError
deriving DecidableEq, Repr

inductive PyFloat where
  | fin (q : ℚ)
  | inf
  | ninf
  | nan
deriving DecidableEq, Repr

namespace PyFloat

/-- Subtraction, with IEEE special-value rules. -/
def psub : PyFloat → PyFloat → PyFloat
  | nan, _ => nan
  | _, nan => nan
  | fin a, fin b => fin (a - b)
  | fin _, inf => ninf
  | fin _, ninf => inf
  | inf, fin _ => inf
  | ninf, fin _ => ninf
  | inf, inf => nan
  | inf, ninf => inf
  | ninf, inf => ninf
  | ninf, ninf => nan

/-- Addition, with IEEE special-value rules. -/
def padd : PyFloat → PyFloat → PyFloat
  | nan, _ => nan
  | _, nan => nan
  | fin a, fin b => fin (a + b)
  | fin _, inf => inf
  | fin _, ninf => ninf
  | inf, fin _ => inf
  | ninf, fin _ => ninf
  | inf, inf => inf
  | inf, ninf => nan
  | ninf, inf => nan
  | ninf, ninf => ninf

/-- Multiplication, with IEEE special-value rules. -/
def pmul : PyFloat → PyFloat → PyFloat
  | nan, _ => nan
  | _, nan => nan
  | fin a, fin b => fin (a * b)
  | fin a, inf => if 0 < a then inf else if a < 0 then ninf else nan
  | fin a, ninf => if 0 < a then ninf else if a < 0 then inf else nan
  | inf, fin b => if 0 < b then inf else if b < 0 then ninf else nan
  | ninf, fin b => if 0 < b then ninf else if b < 0 then inf else nan
  | inf, inf => inf
  | inf, ninf => ninf
  | ninf, inf => ninf
  | ninf, ninf => inf

/-- Division: division of a nonzero finite value by zero gives a signed
infinity, 0/0 and inf/inf give NaN (numpy emits a warning but returns the
value). -/
def pdiv : PyFloat → PyFloat → PyFloat
  | nan, _ => nan
  | _, nan => nan
  | fin a, fin b =>
      if b = 0 then (if 0 < a then inf else if a < 0 then ninf else nan)
      else fin (a / b)
  | fin _, inf => fin 0
  | fin _, ninf => fin 0
  | inf, fin b => if b < 0 then ninf else inf
  | ninf, fin b => if b < 0 then inf else ninf
  | inf, inf => nan
  | inf, ninf => nan
  | ninf, inf => nan
  | ninf, ninf => nan

/-- np.abs on a single value. -/
def pabs : PyFloat → PyFloat
  | fin a => fin |a|
  | inf => inf
  | ninf => inf
  | nan => nan

/-- Unary negation. -/
def pneg : PyFloat → PyFloat
  | fin a => fin (-a)
  | inf => ninf
  | ninf => inf
  | nan => nan

/-- x ** 2 (the square has the same special-value behaviour as x * x). -/
def ppow2 (x : PyFloat) : PyFloat := pmul x x

/-- np.isnan on a single value. -/
def isNan : PyFloat → Bool
  | nan => true
  | _ => false

end PyFloat

open PyFloat

/-- np.sum of a 1-d array: fold of IEEE addition over the elements starting
from 0.0 (exact arithmetic, so association does not matter on finite data;
NaN and infinities propagate as in numpy). -/
def pysum (l : List PyFloat) : PyFloat := l.foldl padd (fin 0)

/-- np.mean of a 1-d array: the sum divided by the length.  On an empty array
this is 0.0 / 0, i.e. NaN, which is what numpy returns (with a warning). -/
def pymean (l : List PyFloat) : PyFloat := pdiv (pysum l) (fin (l.length : ℚ))

/-- An element-wise binary operation on two 1-d numpy arrays, with numpy
broadcasting: equal lengths operate pointwise; a length-1 array is broadcast
against the other; any other length mismatch raises a shape-mismatch
ValueError. -/
def broadcastOp {α β γ : Type} (f : α → β → γ) (a : List α) (b : List β) :
    Except PyErr (List γ) :=
  if a.length = b.length then .ok (List.zipWith f a b)
  else
    match a, b with
    | [x], b => .ok (b.map (f x))
    | a, [y] => .ok (a.map (fun x => f x y))
    | _, _ => .error .valueError

/-- Boolean-mask indexing l[mask]: keeps the elements at positions where the
mask is true; a mask whose length differs from the array raises IndexError. -/
def boolIndex {α : Type} (l : List α) (mask : List Bool) : Except PyErr (List α) :=
  if l.length = mask.length then
    .ok (((l.zip mask).filter (fun p => p.2)).map Prod.fst)
  else .error .indexError

/-- The Python slice y[k:] (drop the first k elements). -/
def sliceFrom {α : Type} (l : List α) (k : Nat) : List α := l.drop k

/-- The Python slice y[:-k]: all elements up to index (length - k).  For
k = 0 this is y[:0], the empty list, exactly as in Python. -/
def sliceToNeg {α : Type} (l : List α) (k : Nat) : List α :=
  if k = 0 then [] else l.take (l.length - k)

/-- nan_wrapper, the function the nan_ignoring decorator returns: mask out
every position where y_true or y_estimated is NaN, then call the wrapped
metric on the filtered pair.  np.logical_or broadcasts; the boolean indexing
then requires the mask to match each array's length. -/
def nan_wrapper {β : Type} (metric : List PyFloat → List PyFloat → Except PyErr β)
    (y_true y_estimated : List PyFloat) : Except PyErr β := do
  let nan_mask ← broadcastOp (fun x y => x || y)
      (y_true.map isNan) (y_estimated.map isNan)
  let t ← boolIndex y_true (nan_mask.map not)
  let e ← boolIndex y_estimated (nan_mask.map not)
  metric t e

/-- squared_error: (y_true - y_estimated) ** 2, element-wise. -/
def squared_error (y_true y_estimated : List PyFloat) :
    Except PyErr (List PyFloat) := do
  let d ← broadcastOp psub y_true y_estimated
  return d.map ppow2

/-- absolute_error: np.abs(y_true - y_estimated), element-wise. -/
def absolute_error (y_true y_estimated : List PyFloat) :
    Except PyErr (List PyFloat) := do
  let d ← broadcastOp psub y_true y_estimated
  return d.map pabs

/-- absolute_percentage_error: np.abs((y_true - y_estimated) / y_true). -/
def absolute_percentage_error (y_true y_estimated : List PyFloat) :
    Except PyErr (List PyFloat) := do
  let d ← broadcastOp psub y_true y_estimated
  let r ← broadcastOp pdiv d y_true
  return r.map pabs

/-- adjusted_absolute_percentage_error:
np.abs((y_true - y_estimated) / (np.abs(y_true) + np.abs(y_estimated))). -/
def adjusted_absolute_percentage_error (y_true y_estimated : List PyFloat) :
    Except PyErr (List PyFloat) := do
  let d ← broadcastOp psub y_true y_estimated
  let s ← broadcastOp padd (y_true.map pabs) (y_estimated.map pabs)
  let r ← broadcastOp pdiv d s
  return r.map pabs

/-- absolute_scaled_error: the absolute error of the forecast divided by the
mean absolute error of the naive seasonal forecast on the training series,
absolute_error(y_train[m:], y_train[:-m]) with m = seasonal_period. -/
def absolute_scaled_error (y_train y_true y_estimated : List PyFloat)
    (seasonal_period : Nat) : Except PyErr (List PyFloat) := do
  let naive_diffs ← absolute_error (sliceFrom y_train seasonal_period)
      (sliceToNeg y_train seasonal_period)
  let mae_naive_forecast := pymean naive_diffs
  let ae_forecast ← absolute_error y_true y_estimated
  return ae_forecast.map (fun x => pdiv x mae_naive_forecast)

/-- mean_squared_error: np.mean(squared_error(y_true, y_estimated)). -/
def mean_squared_error (y_true y_estimated : List PyFloat) :
    Except PyErr PyFloat := do
  let es ← squared_error y_true y_estimated
  return pymean es

/-- mean_absolute_error: np.mean(absolute_error(y_true, y_estimated)). -/
def mean_absolute_error (y_true y_estimated : List PyFloat) :
    Except PyErr PyFloat := do
  let es ← absolute_error y_true y_estimated
  return pymean es

/-- mean_absolute_percentage_error:
np.mean(absolute_percentage_error(y_true, y_estimated)). -/
def mean_absolute_percentage_error (y_true y_estimated : List PyFloat) :
    Except PyErr PyFloat := do
  let es ← absolute_percentage_error y_true y_estimated
  return pymean es

/-- mean_adjusted_absolute_percentage_error:
np.mean(adjusted_absolute_percentage_error(y_true, y_estimated)). -/
def mean_adjusted_absolute_percentage_error (y_true y_estimated : List PyFloat) :
    Except PyErr PyFloat := do
  let es ← adjusted_absolute_percentage_error y_true y_estimated
  return pymean es

/-- mean_absolute_scaled_error:
np.mean(absolute_scaled_error(y_train, y_true, y_estimated, seasonal_period)). -/
def mean_absolute_scaled_error (y_train y_true y_estimated : List PyFloat)
    (seasonal_period : Nat) : Except PyErr PyFloat := do
  let es ← absolute_scaled_error y_train y_true y_estimated seasonal_period
  return pymean es

/-- The decorated mean_squared_error_ignoring_nans. -/
def mean_squared_error_ignoring_nans (y_true y_estimated : List PyFloat) :
    Except PyErr PyFloat :=
  nan_wrapper mean_squared_error y_true y_estimated

/-- The decorated mean_absolute_error_ignoring_nans. -/
def mean_absolute_error_ignoring_nans (y_true y_estimated : List PyFloat) :
    Except PyErr PyFloat :=
  nan_wrapper mean_absolute_error y_true y_estimated

/-- The decorated mean_absolute_percentage_error_ignoring_nans. -/
def mean_absolute_percentage_error_ignoring_nans (y_true y_estimated : List PyFloat) :
    Except PyErr PyFloat :=
  nan_wrapper mean_absolute_percentage_error y_true y_estimated

/-- The decorated neg_mean_absolute_percentage_error_ignoring_nans:
the wrapped metric returns -mean_absolute_percentage_error(...). -/
def neg_mean_absolute_percentage_error_ignoring_nans
    (y_true y_estimated : List PyFloat) : Except PyErr PyFloat :=
  nan_wrapper
    (fun t e => do
      let m ← mean_absolute_percentage_error t e
      return pneg m)
    y_true y_estimated

/-- The decorated mean_adjusted_absolute_percentage_error_ignoring_nans. -/
def mean_adjusted_absolute_percentage_error_ignoring_nans
    (y_true y_estimated : List PyFloat) : Except PyErr PyFloat :=
  nan_wrapper mean_adjusted_absolute_percentage_error y_true y_estimated

/-- The parameter list of nan_wrapper, the function the nan_ignoring
decorator actually returns: exactly y_true and y_estimated. -/
def nan_wrapper_params : List String := ["y_true", "y_estimated"]

/-- Python keyword binding: a call succeeds only if every keyword argument
provided by the caller names a parameter of the callee; otherwise the call
raises TypeError before the body runs. -/
def acceptsKwargs (params kwargs : List String) : Bool :=
  kwargs.all (fun k => params.contains k)

/-- The decorated mean_absolute_scaled_error_ignoring_nans.  The nan_ignoring
decorator replaces the four-parameter function by nan_wrapper, whose parameter
list is nan_wrapper_params; a call passing the four keywords of the advertised
signature (y_train, y_true, y_estimated, seasonal_period) is therefore subject
to Python keyword binding against nan_wrapper_params. -/
def mean_absolute_scaled_error_ignoring_nans (y_train y_true y_estimated : List PyFloat)
    (seasonal_period : Nat) : Except PyErr PyFloat :=
  if acceptsKwargs nan_wrapper_params
      ["y_train", "y_true", "y_estimated", "seasonal_period"] then
    nan_wrapper
      (fun t e => mean_absolute_scaled_error y_train t e seasonal_period)
      y_true y_estimated
  else .error .typeError


/-- The element-wise absolute difference of two rational sequences (the value
of np.abs(a - b) on finite data), used to state characterisation lemmas. -/
def absSubQ (a b : List ℚ) : List ℚ := List.zipWith (fun x y => |x - y|) a b

/-- The naive-forecast absolute-error sequence |y[m:] - y[:-m]| on rationals. -/
def naiveQ (y : List ℚ) (sp : Nat) : List ℚ := absSubQ (sliceFrom y sp) (sliceToNeg y sp)

/-- The rational-level value of absolute_scaled_error on finite inputs. -/
def maseListQ (y t e : List ℚ) (sp : Nat) : List PyFloat :=
  (absSubQ t e).map (fun q =>
    pdiv (fin q) (fin ((naiveQ y sp).sum / ((naiveQ y sp).length : ℚ))))

/-! ### Helper lemmas about the embedding -/

/-- Unfolding lemma: binding a successful Except value. -/
@[simp] theorem exceptBind_ok {ε α β : Type} (a : α) (f : α → Except ε β) :
    ((Except.ok a : Except ε α) >>= f) = f a := rfl

/-- Unfolding lemma: binding a failed Except value. -/
@[simp] theorem exceptBind_error {ε α β : Type} (e : ε) (f : α → Except ε β) :
    ((Except.error e : Except ε α) >>= f) = (Except.error e : Except ε β) := rfl

/-- Unfolding lemma: mapping over a successful Except value. -/
@[simp] theorem exceptMap_ok {ε α β : Type} (f : α → β) (a : α) :
    (f <$> (Except.ok a : Except ε α)) = Except.ok (f a) := rfl

/-- Unfolding lemma: mapping over a failed Except value. -/
@[simp] theorem exceptMap_error {ε α β : Type} (f : α → β) (e : ε) :
    (f <$> (Except.error e : Except ε α)) = (Except.error e : Except ε β) := rfl

/-- Unfolding lemma: pure for the Except monad. -/
@[simp] theorem exceptPure_eq {ε α : Type} (a : α) :
    (pure a : Except ε α) = Except.ok a := rfl

theorem broadcastOp_eq_len {α β γ : Type} (f : α → β → γ) (a : List α) (b : List β)
    (h : a.length = b.length) : broadcastOp f a b = .ok (List.zipWith f a b) := by
  unfold broadcastOp
  rw [if_pos h]

theorem broadcastOp_mismatch {α β γ : Type} (f : α → β → γ) (a : List α) (b : List β)
    (hne : a.length ≠ b.length) (ha : a.length ≠ 1) (hb : b.length ≠ 1) :
    broadcastOp f a b = .error .valueError := by
  unfold broadcastOp
  rw [if_neg hne]
  rcases a with _ | ⟨x, _ | ⟨y, as⟩⟩
  · rcases b with _ | ⟨z, _ | ⟨w, bs⟩⟩
    · exact absurd rfl hne
    · exact absurd rfl hb
    · rfl
  · exact absurd rfl ha
  · rcases b with _ | ⟨z, _ | ⟨w, bs⟩⟩
    · rfl
    · exact absurd rfl hb
    · rfl

theorem sliceFrom_length {α : Type} (l : List α) (k : Nat) :
    (sliceFrom l k).length = l.length - k := by
  simp [sliceFrom]

theorem sliceToNeg_length {α : Type} (l : List α) (k : Nat) (hk : 1 ≤ k) :
    (sliceToNeg l k).length = l.length - k := by
  unfold sliceToNeg
  rw [if_neg (by omega), List.length_take]
  exact min_eq_left (Nat.sub_le _ _)

theorem absolute_error_ok (a b : List PyFloat) (h : a.length = b.length) :
    absolute_error a b = .ok ((List.zipWith psub a b).map pabs) := by
  unfold absolute_error
  rw [broadcastOp_eq_len _ _ _ h]
  rfl

theorem squared_error_mismatch (a b : List PyFloat)
    (hne : a.length ≠ b.length) (ha : a.length ≠ 1) (hb : b.length ≠ 1) :
    squared_error a b = .error .valueError := by
  unfold squared_error
  rw [broadcastOp_mismatch _ _ _ hne ha hb]
  rfl

theorem absolute_error_mismatch (a b : List PyFloat)
    (hne : a.length ≠ b.length) (ha : a.length ≠ 1) (hb : b.length ≠ 1) :
    absolute_error a b = .error .valueError := by
  unfold absolute_error
  rw [broadcastOp_mismatch _ _ _ hne ha hb]
  rfl

theorem absolute_percentage_error_mismatch (a b : List PyFloat)
    (hne : a.length ≠ b.length) (ha : a.length ≠ 1) (hb : b.length ≠ 1) :
    absolute_percentage_error a b = .error .valueError := by
  unfold absolute_percentage_error
  rw [broadcastOp_mismatch _ _ _ hne ha hb]
  rfl

theorem adjusted_absolute_percentage_error_mismatch (a b : List PyFloat)
    (hne : a.length ≠ b.length) (ha : a.length ≠ 1) (hb : b.length ≠ 1) :
    adjusted_absolute_percentage_error a b = .error .valueError := by
  unfold adjusted_absolute_percentage_error
  rw [broadcastOp_mismatch _ _ _ hne ha hb]
  rfl

theorem absolute_scaled_error_mismatch (y_train a b : List PyFloat) (sp : Nat)
    (hsp : 1 ≤ sp)
    (hne : a.length ≠ b.length) (ha : a.length ≠ 1) (hb : b.length ≠ 1) :
    absolute_scaled_error y_train a b sp = .error .valueError := by
  unfold absolute_scaled_error
  rw [absolute_error_ok _ _ (by rw [sliceFrom_length, sliceToNeg_length _ _ hsp])]
  rw [exceptBind_ok]
  rw [absolute_error_mismatch _ _ hne ha hb]
  rfl

theorem map_isNan_of_no_nan (l : List PyFloat) (h : ∀ x ∈ l, x.isNan = false) :
    l.map isNan = List.replicate l.length false := by
  induction l with
  | nil => rfl
  | cons x xs ih =>
    simp only [List.map_cons, List.length_cons, List.replicate_succ]
    rw [h x (by simp), ih (fun y hy => h y (by simp [hy]))]

theorem zipWith_or_replicate_false (n : Nat) :
    List.zipWith (fun x y => x || y) (List.replicate n false) (List.replicate n false)
      = List.replicate n false := by
  induction n with
  | zero => rfl
  | succ n ih => simp only [List.replicate_succ, List.zipWith_cons_cons, ih, Bool.or_self]

theorem filter_zip_replicate_true {α : Type} (l : List α) :
    ((l.zip (List.replicate l.length true)).filter (fun p => p.2)).map Prod.fst = l := by
  induction l with
  | nil => rfl
  | cons x xs ih =>
    simp only [List.length_cons, List.replicate_succ, List.zip_cons_cons, List.filter_cons]
    simp [ih]

theorem filter_zip_replicate_false {α : Type} (l : List α) :
    ((l.zip (List.replicate l.length false)).filter (fun p => p.2)).map Prod.fst = [] := by
  induction l with
  | nil => rfl
  | cons x xs ih =>
    simp only [List.length_cons, List.replicate_succ, List.zip_cons_cons, List.filter_cons]
    simp [ih]

theorem boolIndex_replicate_true {α : Type} (l : List α) :
    boolIndex l (List.replicate l.length true) = .ok l := by
  unfold boolIndex
  rw [if_pos (by rw [List.length_replicate])]
  rw [filter_zip_replicate_true]

theorem boolIndex_replicate_false {α : Type} (l : List α) :
    boolIndex l (List.replicate l.length false) = .ok [] := by
  unfold boolIndex
  rw [if_pos (by rw [List.length_replicate])]
  rw [filter_zip_replicate_false]

/-- On equal-length NaN-free inputs the nan_wrapper passes the inputs through
to the wrapped metric unchanged. -/
theorem nan_wrapper_no_nan {β : Type} (metric : List PyFloat → List PyFloat → Except PyErr β)
    (t e : List PyFloat) (hlen : t.length = e.length)
    (ht : ∀ x ∈ t, x.isNan = false) (he : ∀ x ∈ e, x.isNan = false) :
    nan_wrapper metric t e = metric t e := by
  unfold nan_wrapper
  rw [map_isNan_of_no_nan t ht, map_isNan_of_no_nan e he, ← hlen]
  rw [broadcastOp_eq_len _ _ _ (by simp)]
  rw [exceptBind_ok, zipWith_or_replicate_false, List.map_replicate]
  simp only [Bool.not_false]
  rw [boolIndex_replicate_true, exceptBind_ok]
  rw [show List.replicate t.length true = List.replicate e.length true from by rw [hlen]]
  rw [boolIndex_replicate_true, exceptBind_ok]

theorem zipWith_or_isNan_all (t e : List PyFloat) (hlen : t.length = e.length)
    (h : ∀ p ∈ t.zip e, (p.1.isNan || p.2.isNan) = true) :
    List.zipWith (fun x y => x || y) (t.map isNan) (e.map isNan)
      = List.replicate t.length true := by
  induction t generalizing e with
  | nil => simp
  | cons x xs ih =>
    cases e with
    | nil => simp at hlen
    | cons y ys =>
      simp only [List.map_cons, List.zipWith_cons_cons, List.length_cons, List.replicate_succ]
      rw [h ⟨x, y⟩ (by simp [List.zip_cons_cons]),
        ih ys (by simpa using hlen)
          (fun p hp => h p (by simp [List.zip_cons_cons, hp]))]

/-- When every position of the equal-length pair carries a NaN on at least one
side, the nan_wrapper calls the wrapped metric on two empty sequences. -/
theorem nan_wrapper_all_nan {β : Type} (metric : List PyFloat → List PyFloat → Except PyErr β)
    (t e : List PyFloat) (hlen : t.length = e.length)
    (h : ∀ p ∈ t.zip e, (p.1.isNan || p.2.isNan) = true) :
    nan_wrapper metric t e = metric [] [] := by
  unfold nan_wrapper
  rw [broadcastOp_eq_len _ _ _ (by simp [hlen])]
  rw [exceptBind_ok, zipWith_or_isNan_all t e hlen h, List.map_replicate]
  simp only [Bool.not_true]
  rw [boolIndex_replicate_false, exceptBind_ok]
  rw [show List.replicate t.length false = List.replicate e.length false from by rw [hlen]]
  rw [boolIndex_replicate_false, exceptBind_ok]

theorem pabs_psub_comm (x y : PyFloat) : pabs (psub x y) = pabs (psub y x) := by
  cases x <;> cases y <;> simp [psub, pabs, abs_sub_comm]

theorem ppow2_psub_comm (x y : PyFloat) : ppow2 (psub x y) = ppow2 (psub y x) := by
  cases x <;> cases y <;> simp [psub, ppow2, pmul]
  ring_nf

/-! ### Claim theorems -/

/-- C1: on equal-length inputs containing no NaN values, each of the four
NaN-tolerant wrapped mean metrics returns exactly the value of the underlying
unwrapped metric. -/
theorem nan_tolerant_identity (t e : List PyFloat) (hlen : t.length = e.length)
    (ht : ∀ x ∈ t, x.isNan = false) (he : ∀ x ∈ e, x.isNan = false) :
    mean_squared_error_ignoring_nans t e = mean_squared_error t e ∧
    mean_absolute_error_ignoring_nans t e = mean_absolute_error t e ∧
    mean_absolute_percentage_error_ignoring_nans t e
      = mean_absolute_percentage_error t e ∧
    mean_adjusted_absolute_percentage_error_ignoring_nans t e
      = mean_adjusted_absolute_percentage_error t e :=
  ⟨nan_wrapper_no_nan mean_squared_error t e hlen ht he,
   nan_wrapper_no_nan mean_absolute_error t e hlen ht he,
   nan_wrapper_no_nan mean_absolute_percentage_error t e hlen ht he,
   nan_wrapper_no_nan mean_adjusted_absolute_percentage_error t e hlen ht he⟩

/-- Witness for C1 at the concrete NaN-free input ([1,2],[3,4]). -/
theorem nan_tolerant_identity_witness :
    (([fin 1, fin 2] : List PyFloat).length = ([fin 3, fin 4] : List PyFloat).length ∧
      (∀ x ∈ ([fin 1, fin 2] : List PyFloat), x.isNan = false) ∧
      (∀ x ∈ ([fin 3, fin 4] : List PyFloat), x.isNan = false)) ∧
    (mean_squared_error_ignoring_nans [fin 1, fin 2] [fin 3, fin 4]
        = mean_squared_error [fin 1, fin 2] [fin 3, fin 4] ∧
      mean_absolute_error_ignoring_nans [fin 1, fin 2] [fin 3, fin 4]
        = mean_absolute_error [fin 1, fin 2] [fin 3, fin 4] ∧
      mean_absolute_percentage_error_ignoring_nans [fin 1, fin 2] [fin 3, fin 4]
        = mean_absolute_percentage_error [fin 1, fin 2] [fin 3, fin 4] ∧
      mean_adjusted_absolute_percentage_error_ignoring_nans [fin 1, fin 2] [fin 3, fin 4]
        = mean_adjusted_absolute_percentage_error [fin 1, fin 2] [fin 3, fin 4]) :=
  ⟨⟨by decide, by decide, by decide⟩,
    nan_tolerant_identity [fin 1, fin 2] [fin 3, fin 4] (by decide) (by decide) (by decide)⟩

/-- C9: when every position of the equal-length pair has a NaN in y_true or in
y_estimated, each NaN-tolerant wrapped mean metric returns NaN (the mean of an
empty sequence, 0.0/0) rather than raising an error. -/
theorem all_masked_mean_is_nan (t e : List PyFloat) (hlen : t.length = e.length)
    (h : ∀ p ∈ t.zip e, (p.1.isNan || p.2.isNan) = true) :
    mean_squared_error_ignoring_nans t e = .ok PyFloat.nan ∧
    mean_absolute_error_ignoring_nans t e = .ok PyFloat.nan ∧
    mean_absolute_percentage_error_ignoring_nans t e = .ok PyFloat.nan ∧
    neg_mean_absolute_percentage_error_ignoring_nans t e = .ok PyFloat.nan ∧
    mean_adjusted_absolute_percentage_error_ignoring_nans t e = .ok PyFloat.nan := by
  refine ⟨(nan_wrapper_all_nan _ t e hlen h).trans ?_,
    (nan_wrapper_all_nan _ t e hlen h).trans ?_,
    (nan_wrapper_all_nan _ t e hlen h).trans ?_,
    (nan_wrapper_all_nan _ t e hlen h).trans ?_,
    (nan_wrapper_all_nan _ t e hlen h).trans ?_⟩ <;>
    norm_num [mean_squared_error, squared_error, mean_absolute_error, absolute_error,
      mean_absolute_percentage_error, absolute_percentage_error,
      mean_adjusted_absolute_percentage_error, adjusted_absolute_percentage_error,
      broadcastOp, pymean, pysum, pdiv, pneg, List.foldl]

/-- Witness for C9 at the concrete all-masked input ([NaN,5],[1,NaN]). -/
theorem all_masked_mean_is_nan_witness :
    (([PyFloat.nan, fin 5] : List PyFloat).length
        = ([fin 1, PyFloat.nan] : List PyFloat).length ∧
      (∀ p ∈ ([PyFloat.nan, fin 5] : List PyFloat).zip [fin 1, PyFloat.nan],
        (p.1.isNan || p.2.isNan) = true)) ∧
    (mean_squared_error_ignoring_nans [PyFloat.nan, fin 5] [fin 1, PyFloat.nan]
        = .ok PyFloat.nan ∧
      mean_absolute_error_ignoring_nans [PyFloat.nan, fin 5] [fin 1, PyFloat.nan]
        = .ok PyFloat.nan ∧
      mean_absolute_percentage_error_ignoring_nans [PyFloat.nan, fin 5] [fin 1, PyFloat.nan]
        = .ok PyFloat.nan ∧
      neg_mean_absolute_percentage_error_ignoring_nans [PyFloat.nan, fin 5] [fin 1, PyFloat.nan]
        = .ok PyFloat.nan ∧
      mean_adjusted_absolute_percentage_error_ignoring_nans [PyFloat.nan, fin 5] [fin 1, PyFloat.nan]
        = .ok PyFloat.nan) :=
  ⟨⟨by decide, by decide⟩,
    all_masked_mean_is_nan [PyFloat.nan, fin 5] [fin 1, PyFloat.nan] (by decide) (by decide)⟩

/-- C10: squared_error and absolute_error are symmetric in their two
arguments on equal-length inputs (element-wise, hence as whole results). -/
theorem pointwise_error_symmetry (a b : List PyFloat) (hlen : a.length = b.length) :
    squared_error a b = squared_error b a ∧
    absolute_error a b = absolute_error b a := by
  constructor
  · unfold squared_error
    rw [broadcastOp_eq_len _ _ _ hlen, broadcastOp_eq_len _ _ _ hlen.symm,
      exceptBind_ok, exceptBind_ok]
    congr 1
    rw [List.map_zipWith, List.map_zipWith]
    exact List.zipWith_comm_of_comm _ ppow2_psub_comm a b
  · unfold absolute_error
    rw [broadcastOp_eq_len _ _ _ hlen, broadcastOp_eq_len _ _ _ hlen.symm,
      exceptBind_ok, exceptBind_ok]
    congr 1
    rw [List.map_zipWith, List.map_zipWith]
    exact List.zipWith_comm_of_comm _ pabs_psub_comm a b

/-- Witness for C10 at a concrete input including an infinity. -/
theorem pointwise_error_symmetry_witness :
    ([fin 1, PyFloat.inf] : List PyFloat).length
        = ([fin 3, fin 4] : List PyFloat).length ∧
    (squared_error [fin 1, PyFloat.inf] [fin 3, fin 4]
        = squared_error [fin 3, fin 4] [fin 1, PyFloat.inf] ∧
      absolute_error [fin 1, PyFloat.inf] [fin 3, fin 4]
        = absolute_error [fin 3, fin 4] [fin 1, PyFloat.inf]) :=
  ⟨by decide, pointwise_error_symmetry [fin 1, PyFloat.inf] [fin 3, fin 4] (by decide)⟩

/-- C2: the claim says mean_absolute_scaled_error_ignoring_nans accepts and
forwards y_train and seasonal_period to the underlying metric.  In the code the
nan_ignoring decorator replaces the function by nan_wrapper, whose only
parameters are y_true and y_estimated, so every call that passes y_train (as
the advertised four-argument signature does) raises TypeError; the call never
succeeds, for any inputs whatsoever. -/
theorem mase_ignoring_nans_always_type_error
    (y_train y_true y_estimated : List PyFloat) (seasonal_period : Nat) :
    mean_absolute_scaled_error_ignoring_nans y_train y_true y_estimated seasonal_period
      = .error .typeError := by
  have h : acceptsKwargs nan_wrapper_params
      ["y_train", "y_true", "y_estimated", "seasonal_period"] = false := by decide
  simp [mean_absolute_scaled_error_ignoring_nans, h]

/-- C3 (counterexample): the claim says every pair of unequal-length inputs
fails with a shape-mismatch error, but numpy broadcasting makes a length-1
sequence combine with a length-2 sequence: squared_error([1,2],[3]) returns
the value [4,1] (and its mean returns 5/2) instead of failing. -/
theorem shape_mismatch_counterexample :
    ([fin 1, fin 2] : List PyFloat).length ≠ ([fin 3] : List PyFloat).length ∧
    squared_error [fin 1, fin 2] [fin 3] = .ok [fin 4, fin 1] ∧
    mean_squared_error [fin 1, fin 2] [fin 3] = .ok (fin (5/2)) := by
  refine ⟨by decide, ?_, ?_⟩ <;>
    norm_num [mean_squared_error, squared_error, broadcastOp, psub, ppow2, pmul,
      pymean, pysum, padd, pdiv, List.foldl]

/-- C3 (amended): for every pair of input sequences y_true, y_estimated of
unequal length in which neither sequence has length 1 (so numpy broadcasting
does not apply; for the scaled variant, with seasonal_period at least 1),
every pointwise error function and every aggregate mean metric fails with a
shape-mismatch (ValueError) rather than returning a value. -/
theorem shape_mismatch_errors (a b y_train : List PyFloat) (sp : Nat)
    (hsp : 1 ≤ sp)
    (hne : a.length ≠ b.length) (ha : a.length ≠ 1) (hb : b.length ≠ 1) :
    squared_error a b = .error .valueError ∧
    absolute_error a b = .error .valueError ∧
    absolute_percentage_error a b = .error .valueError ∧
    adjusted_absolute_percentage_error a b = .error .valueError ∧
    absolute_scaled_error y_train a b sp = .error .valueError ∧
    mean_squared_error a b = .error .valueError ∧
    mean_absolute_error a b = .error .valueError ∧
    mean_absolute_percentage_error a b = .error .valueError ∧
    mean_adjusted_absolute_percentage_error a b = .error .valueError ∧
    mean_absolute_scaled_error y_train a b sp = .error .valueError := by
  refine ⟨squared_error_mismatch a b hne ha hb,
    absolute_error_mismatch a b hne ha hb,
    absolute_percentage_error_mismatch a b hne ha hb,
    adjusted_absolute_percentage_error_mismatch a b hne ha hb,
    absolute_scaled_error_mismatch y_train a b sp hsp hne ha hb,
    ?_, ?_, ?_, ?_, ?_⟩
  · unfold mean_squared_error
    rw [squared_error_mismatch a b hne ha hb]
    rfl
  · unfold mean_absolute_error
    rw [absolute_error_mismatch a b hne ha hb]
    rfl
  · unfold mean_absolute_percentage_error
    rw [absolute_percentage_error_mismatch a b hne ha hb]
    rfl
  · unfold mean_adjusted_absolute_percentage_error
    rw [adjusted_absolute_percentage_error_mismatch a b hne ha hb]
    rfl
  · unfold mean_absolute_scaled_error
    rw [absolute_scaled_error_mismatch y_train a b sp hsp hne ha hb]
    rfl

/-- Witness for the amended C3 at a concrete input: y_true of length 2,
y_estimated of length 3, y_train of length 2, seasonal_period 1. -/
theorem shape_mismatch_errors_witness :
    (1 ≤ 1 ∧
      ([fin 1, fin 2] : List PyFloat).length ≠
        ([fin 3, fin 4, fin 5] : List PyFloat).length ∧
      ([fin 1, fin 2] : List PyFloat).length ≠ 1 ∧
      ([fin 3, fin 4, fin 5] : List PyFloat).length ≠ 1) ∧
    squared_error [fin 1, fin 2] [fin 3, fin 4, fin 5] = .error .valueError ∧
    absolute_error [fin 1, fin 2] [fin 3, fin 4, fin 5] = .error .valueError ∧
    absolute_percentage_error [fin 1, fin 2] [fin 3, fin 4, fin 5] = .error .valueError ∧
    adjusted_absolute_percentage_error [fin 1, fin 2] [fin 3, fin 4, fin 5]
      = .error .valueError ∧
    absolute_scaled_error [fin 6, fin 7] [fin 1, fin 2] [fin 3, fin 4, fin 5] 1
      = .error .valueError ∧
    mean_squared_error [fin 1, fin 2] [fin 3, fin 4, fin 5] = .error .valueError ∧
    mean_absolute_error [fin 1, fin 2] [fin 3, fin 4, fin 5] = .error .valueError ∧
    mean_absolute_percentage_error [fin 1, fin 2] [fin 3, fin 4, fin 5]
      = .error .valueError ∧
    mean_adjusted_absolute_percentage_error [fin 1, fin 2] [fin 3, fin 4, fin 5]
      = .error .valueError ∧
    mean_absolute_scaled_error [fin 6, fin 7] [fin 1, fin 2] [fin 3, fin 4, fin 5] 1
      = .error .valueError :=
  ⟨⟨le_refl 1, by decide, by decide, by decide⟩,
    shape_mismatch_errors [fin 1, fin 2] [fin 3, fin 4, fin 5] [fin 6, fin 7] 1
      (le_refl 1) (by decide) (by decide) (by decide)⟩

/-- C6: on y_train = [10,12,11,13,12,14] with seasonal_period 1, the naive
one-step forecast has absolute errors [2,1,2,1,2] with mean 8/5 = 1.6; for
y_true = [15,16] and y_estimated = [14,18] the absolute scaled errors are
[5/8, 5/4] = [0.625, 1.25] and their mean is 15/16 = 0.9375. -/
theorem concrete_mase_scenario :
    absolute_error
        (sliceFrom [fin 10, fin 12, fin 11, fin 13, fin 12, fin 14] 1)
        (sliceToNeg [fin 10, fin 12, fin 11, fin 13, fin 12, fin 14] 1)
      = .ok [fin 2, fin 1, fin 2, fin 1, fin 2] ∧
    pymean [fin 2, fin 1, fin 2, fin 1, fin 2] = fin (8/5) ∧
    absolute_scaled_error [fin 10, fin 12, fin 11, fin 13, fin 12, fin 14]
        [fin 15, fin 16] [fin 14, fin 18] 1
      = .ok [fin (5/8), fin (5/4)] ∧
    mean_absolute_scaled_error [fin 10, fin 12, fin 11, fin 13, fin 12, fin 14]
        [fin 15, fin 16] [fin 14, fin 18] 1
      = .ok (fin (15/16)) := by
  refine ⟨?_, ?_, ?_, ?_⟩ <;>
    norm_num [mean_absolute_scaled_error, absolute_scaled_error, absolute_error,
      sliceFrom, sliceToNeg, broadcastOp, psub, pabs, pdiv, pymean, pysum, padd,
      List.foldl]

/-- C8: absolute_percentage_error([0,10],[1,9]) divides by the zero true
value at index 0, which propagates as a (positive, after np.abs) infinity
rather than raising: the result is [inf, 1/10]. -/
theorem concrete_ape_div_by_zero :
    absolute_percentage_error [fin 0, fin 10] [fin 1, fin 9]
      = .ok [PyFloat.inf, fin (1/10)] := by
  norm_num [absolute_percentage_error, broadcastOp, psub, pdiv, pabs]

theorem squared_error_ok (t e : List PyFloat) (hlen : t.length = e.length) :
    squared_error t e = .ok ((List.zipWith psub t e).map ppow2) := by
  unfold squared_error
  rw [broadcastOp_eq_len _ _ _ hlen]
  rfl

theorem absolute_percentage_error_ok (t e : List PyFloat) (hlen : t.length = e.length) :
    absolute_percentage_error t e
      = .ok ((List.zipWith pdiv (List.zipWith psub t e) t).map pabs) := by
  unfold absolute_percentage_error
  rw [broadcastOp_eq_len _ _ _ hlen, exceptBind_ok,
    broadcastOp_eq_len _ _ _ (by simp [List.length_zipWith, hlen]), exceptBind_ok]
  rfl

theorem adjusted_absolute_percentage_error_ok (t e : List PyFloat)
    (hlen : t.length = e.length) :
    adjusted_absolute_percentage_error t e
      = .ok ((List.zipWith pdiv (List.zipWith psub t e)
          (List.zipWith padd (t.map pabs) (e.map pabs))).map pabs) := by
  unfold adjusted_absolute_percentage_error
  rw [broadcastOp_eq_len _ _ _ hlen, exceptBind_ok,
    broadcastOp_eq_len _ _ _ (by simp [hlen]), exceptBind_ok,
    broadcastOp_eq_len _ _ _ (by simp [List.length_zipWith, hlen]), exceptBind_ok]
  rfl

theorem absolute_scaled_error_ok (y_train t e : List PyFloat) (sp : Nat) (hsp : 1 ≤ sp)
    (hlen : t.length = e.length) :
    absolute_scaled_error y_train t e sp
      = .ok (((List.zipWith psub t e).map pabs).map
          (fun x => pdiv x (pymean ((List.zipWith psub (sliceFrom y_train sp)
            (sliceToNeg y_train sp)).map pabs)))) := by
  unfold absolute_scaled_error
  rw [absolute_error_ok _ _ (by rw [sliceFrom_length, sliceToNeg_length _ _ hsp]),
    exceptBind_ok, absolute_error_ok _ _ hlen, exceptBind_ok]
  rfl

/-- C5: for each of the five metrics, on equal-length non-empty inputs (with a
training sequence and seasonal_period at least 1 for the scaled variant,
forwarded unchanged), the aggregate mean function returns exactly the
arithmetic mean (np.mean) of the pointwise error sequence. -/
theorem mean_consistency (t e y_train : List PyFloat) (sp : Nat)
    (hlen : t.length = e.length) (_hne : t ≠ []) (hsp : 1 ≤ sp) :
    (∃ es, squared_error t e = .ok es ∧ mean_squared_error t e = .ok (pymean es)) ∧
    (∃ es, absolute_error t e = .ok es ∧ mean_absolute_error t e = .ok (pymean es)) ∧
    (∃ es, absolute_percentage_error t e = .ok es ∧
      mean_absolute_percentage_error t e = .ok (pymean es)) ∧
    (∃ es, adjusted_absolute_percentage_error t e = .ok es ∧
      mean_adjusted_absolute_percentage_error t e = .ok (pymean es)) ∧
    (∃ es, absolute_scaled_error y_train t e sp = .ok es ∧
      mean_absolute_scaled_error y_train t e sp = .ok (pymean es)) := by
  refine ⟨⟨_, squared_error_ok t e hlen, ?_⟩,
    ⟨_, absolute_error_ok t e hlen, ?_⟩,
    ⟨_, absolute_percentage_error_ok t e hlen, ?_⟩,
    ⟨_, adjusted_absolute_percentage_error_ok t e hlen, ?_⟩,
    ⟨_, absolute_scaled_error_ok y_train t e sp hsp hlen, ?_⟩⟩
  · unfold mean_squared_error
    rw [squared_error_ok t e hlen]
    rfl
  · unfold mean_absolute_error
    rw [absolute_error_ok t e hlen]
    rfl
  · unfold mean_absolute_percentage_error
    rw [absolute_percentage_error_ok t e hlen]
    rfl
  · unfold mean_adjusted_absolute_percentage_error
    rw [adjusted_absolute_percentage_error_ok t e hlen]
    rfl
  · unfold mean_absolute_scaled_error
    rw [absolute_scaled_error_ok y_train t e sp hsp hlen]
    rfl

/-- Witness for C5 at the concrete input ([1],[2]) with y_train=[0,1], m=1. -/
theorem mean_consistency_witness :
    (([fin 1] : List PyFloat).length = ([fin 2] : List PyFloat).length ∧
      ([fin 1] : List PyFloat) ≠ [] ∧ 1 ≤ 1) ∧
    ((∃ es, squared_error [fin 1] [fin 2] = .ok es ∧
        mean_squared_error [fin 1] [fin 2] = .ok (pymean es)) ∧
      (∃ es, absolute_error [fin 1] [fin 2] = .ok es ∧
        mean_absolute_error [fin 1] [fin 2] = .ok (pymean es)) ∧
      (∃ es, absolute_percentage_error [fin 1] [fin 2] = .ok es ∧
        mean_absolute_percentage_error [fin 1] [fin 2] = .ok (pymean es)) ∧
      (∃ es, adjusted_absolute_percentage_error [fin 1] [fin 2] = .ok es ∧
        mean_adjusted_absolute_percentage_error [fin 1] [fin 2] = .ok (pymean es)) ∧
      (∃ es, absolute_scaled_error [fin 0, fin 1] [fin 1] [fin 2] 1 = .ok es ∧
        mean_absolute_scaled_error [fin 0, fin 1] [fin 1] [fin 2] 1 = .ok (pymean es))) :=
  ⟨⟨by decide, by decide, le_refl 1⟩,
    mean_consistency [fin 1] [fin 2] [fin 0, fin 1] 1 (by decide) (by decide) (le_refl 1)⟩

theorem getD_zipWith {α β γ : Type} (f : α → β → γ) :
    ∀ (a : List α) (b : List β) (i : Nat) (d₁ : α) (d₂ : β) (d₃ : γ),
      i < a.length → i < b.length →
      (List.zipWith f a b).getD i d₃ = f (a.getD i d₁) (b.getD i d₂)
  | [], _, _, _, _, _, hi, _ => by simp at hi
  | _ :: _, [], _, _, _, _, _, hj => by simp at hj
  | x :: xs, y :: ys, 0, _, _, _, _, _ => rfl
  | x :: xs, y :: ys, i+1, d₁, d₂, d₃, hi, hj => by
    simp only [List.zipWith_cons_cons, List.getD_cons_succ]
    exact getD_zipWith f xs ys i d₁ d₂ d₃ (by simpa using hi) (by simpa using hj)

theorem aape_list_char (a : List ℚ) :
    ∀ b : List ℚ,
      (List.zipWith pdiv (List.zipWith psub (a.map fin) (b.map fin))
          (List.zipWith padd ((a.map fin).map pabs) ((b.map fin).map pabs))).map pabs
        = List.zipWith (fun x y => pabs (pdiv (fin (x - y)) (fin (|x| + |y|)))) a b := by
  induction a with
  | nil => intro b; simp
  | cons x xs ih =>
    intro b
    cases b with
    | nil => simp
    | cons y ys =>
      simp only [List.map_cons, List.zipWith_cons_cons]
      rw [ih ys]
      rfl

/-- C7: on equal-length rational inputs, at every index i where
abs(y_true[i]) + abs(y_estimated[i]) is nonzero, the element of
adjusted_absolute_percentage_error at i is a finite value in [0, 1]. -/
theorem aape_bounded (a b : List ℚ) (hlen : a.length = b.length) (i : Nat)
    (hi : i < a.length) (hnz : |a.getD i 0| + |b.getD i 0| ≠ 0) :
    ∃ es q, adjusted_absolute_percentage_error (a.map fin) (b.map fin) = .ok es ∧
      es.getD i PyFloat.nan = fin q ∧ 0 ≤ q ∧ q ≤ 1 := by
  have hpos : 0 < |a.getD i 0| + |b.getD i 0| :=
    lt_of_le_of_ne (add_nonneg (abs_nonneg _) (abs_nonneg _)) (Ne.symm hnz)
  refine ⟨List.zipWith (fun x y => pabs (pdiv (fin (x - y)) (fin (|x| + |y|)))) a b,
    |a.getD i 0 - b.getD i 0| / (|a.getD i 0| + |b.getD i 0|),
    ?_, ?_, div_nonneg (abs_nonneg _) (le_of_lt hpos), (div_le_one hpos).mpr (abs_sub _ _)⟩
  · rw [adjusted_absolute_percentage_error_ok _ _ (by simp [hlen]), aape_list_char]
  · rw [getD_zipWith _ a b i 0 0 _ hi (hlen ▸ hi)]
    simp only [pdiv, if_neg hnz, pabs]
    rw [abs_div, abs_of_nonneg (le_of_lt hpos)]

/-- Witness for C7 at the concrete input ([2],[1]), index 0. -/
theorem aape_bounded_witness :
    (([(2 : ℚ)] : List ℚ).length = ([(1 : ℚ)] : List ℚ).length ∧
      0 < ([(2 : ℚ)] : List ℚ).length ∧
      |([(2 : ℚ)] : List ℚ).getD 0 0| + |([(1 : ℚ)] : List ℚ).getD 0 0| ≠ 0) ∧
    (∃ es q,
      adjusted_absolute_percentage_error (([(2 : ℚ)] : List ℚ).map fin)
          (([(1 : ℚ)] : List ℚ).map fin) = .ok es ∧
      es.getD 0 PyFloat.nan = fin q ∧ 0 ≤ q ∧ q ≤ 1) :=
  ⟨⟨rfl, by norm_num, by norm_num [List.getD_cons_zero]⟩,
    aape_bounded [(2 : ℚ)] [(1 : ℚ)] rfl 0 (by norm_num)
      (by norm_num [List.getD_cons_zero])⟩

theorem absSubQ_cons (x y : ℚ) (xs ys : List ℚ) :
    absSubQ (x :: xs) (y :: ys) = |x - y| :: absSubQ xs ys := rfl

theorem zipWith_psub_pabs_fin (a : List ℚ) : ∀ b : List ℚ,
    (List.zipWith psub (a.map fin) (b.map fin)).map pabs = (absSubQ a b).map fin := by
  induction a with
  | nil => intro b; simp [absSubQ]
  | cons x xs ih =>
    intro b
    cases b with
    | nil => simp [absSubQ]
    | cons y ys =>
      simp only [List.map_cons, List.zipWith_cons_cons, absSubQ_cons]
      rw [ih ys]
      rfl

theorem absSubQ_map_mul (k : ℚ) (a : List ℚ) : ∀ b : List ℚ,
    absSubQ (a.map (fun q => k * q)) (b.map (fun q => k * q))
      = (absSubQ a b).map (fun q => |k| * q) := by
  induction a with
  | nil => intro b; simp [absSubQ]
  | cons x xs ih =>
    intro b
    cases b with
    | nil => simp [absSubQ]
    | cons y ys =>
      simp only [List.map_cons, absSubQ_cons]
      rw [ih ys, ← mul_sub, abs_mul]

theorem sliceFrom_map {α β : Type} (f : α → β) (l : List α) (k : Nat) :
    sliceFrom (l.map f) k = (sliceFrom l k).map f := by
  simp [sliceFrom, List.map_drop]

theorem sliceToNeg_map {α β : Type} (f : α → β) (l : List α) (k : Nat) :
    sliceToNeg (l.map f) k = (sliceToNeg l k).map f := by
  unfold sliceToNeg
  by_cases hk : k = 0
  · simp [hk]
  · rw [if_neg hk, if_neg hk, List.length_map]
    exact (List.map_take f l _).symm

theorem foldl_padd_fin (l : List ℚ) : ∀ c : ℚ,
    List.foldl padd (fin c) (l.map fin) = fin (c + l.sum) := by
  induction l with
  | nil => intro c; simp
  | cons x xs ih =>
    intro c
    simp only [List.map_cons, List.foldl_cons]
    rw [show padd (fin c) (fin x) = fin (c + x) from rfl, ih, List.sum_cons]
    ring_nf

theorem pysum_fin (l : List ℚ) : pysum (l.map fin) = fin l.sum := by
  unfold pysum
  rw [foldl_padd_fin l 0, zero_add]

theorem pymean_fin (l : List ℚ) (hne : l ≠ []) :
    pymean (l.map fin) = fin (l.sum / (l.length : ℚ)) := by
  unfold pymean
  rw [pysum_fin, List.length_map]
  have hlen : ((l.length : ℚ)) ≠ 0 := by
    simp only [ne_eq, Nat.cast_eq_zero, List.length_eq_zero]
    exact hne
  simp only [pdiv]
  rw [if_neg hlen]

theorem sum_map_mul (c : ℚ) (l : List ℚ) : (l.map (fun q => c * q)).sum = c * l.sum := by
  induction l with
  | nil => simp
  | cons x xs ih => simp [ih, mul_add]

theorem pdiv_fin_scale (c q m : ℚ) (hc : 0 < c) :
    pdiv (fin (c * q)) (fin (c * m)) = pdiv (fin q) (fin m) := by
  by_cases hm : m = 0
  · subst hm
    rw [mul_zero]
    simp only [pdiv, if_true]
    rcases lt_trichotomy q 0 with h | h | h
    · rw [if_neg (by nlinarith), if_pos (by nlinarith), if_neg (by linarith), if_pos h]
    · subst h
      rw [mul_zero]
    · rw [if_pos (by nlinarith), if_pos h]
  · have hcm : c * m ≠ 0 := mul_ne_zero (ne_of_gt hc) hm
    simp only [pdiv]
    rw [if_neg hcm, if_neg hm, mul_div_mul_left _ _ (ne_of_gt hc)]

theorem naiveQ_length (y : List ℚ) (sp : Nat) (hsp : 1 ≤ sp) :
    (naiveQ y sp).length = y.length - sp := by
  unfold naiveQ absSubQ
  rw [List.length_zipWith, sliceFrom_length, sliceToNeg_length _ _ hsp, min_self]

theorem absolute_scaled_error_fin (y t e : List ℚ) (sp : Nat) (hsp : 1 ≤ sp)
    (hlen : t.length = e.length) (htr : sp < y.length) :
    absolute_scaled_error (y.map fin) (t.map fin) (e.map fin) sp
      = .ok (maseListQ y t e sp) := by
  rw [absolute_scaled_error_ok _ _ _ _ hsp (by simp [hlen])]
  congr 1
  rw [sliceFrom_map, sliceToNeg_map, zipWith_psub_pabs_fin, zipWith_psub_pabs_fin]
  have hne : naiveQ y sp ≠ [] := by
    have : 0 < (naiveQ y sp).length := by
      rw [naiveQ_length y sp hsp]
      omega
    exact List.length_pos.mp this
  rw [show absSubQ (sliceFrom y sp) (sliceToNeg y sp) = naiveQ y sp from rfl,
    pymean_fin _ hne, List.map_map]
  rfl

theorem maseListQ_scale (k : ℚ) (hk : k ≠ 0) (y t e : List ℚ) (sp : Nat) :
    maseListQ (y.map (fun q => k * q)) (t.map (fun q => k * q))
        (e.map (fun q => k * q)) sp
      = maseListQ y t e sp := by
  have habs : 0 < |k| := abs_pos.mpr hk
  unfold maseListQ
  rw [show naiveQ (y.map (fun q => k * q)) sp = (naiveQ y sp).map (fun q => |k| * q) from by
      unfold naiveQ
      rw [sliceFrom_map, sliceToNeg_map, absSubQ_map_mul]]
  rw [absSubQ_map_mul, sum_map_mul, List.length_map, List.map_map]
  rw [mul_div_assoc]
  congr 1
  funext q
  exact pdiv_fin_scale |k| q _ habs

/-- C4: mean_absolute_scaled_error is scale invariant: multiplying y_train,
y_true and y_estimated by any nonzero rational scalar k leaves the result
unchanged (including the degenerate cases where the naive-forecast mean
absolute error is zero, where both sides give the same infinity or NaN). -/
theorem mase_scale_invariant (k : ℚ) (hk : k ≠ 0) (y_train t e : List ℚ) (sp : Nat)
    (hsp : 1 ≤ sp) (htr : sp < y_train.length) (hlen : t.length = e.length) :
    mean_absolute_scaled_error ((y_train.map (fun q => k * q)).map fin)
        ((t.map (fun q => k * q)).map fin) ((e.map (fun q => k * q)).map fin) sp
      = mean_absolute_scaled_error (y_train.map fin) (t.map fin) (e.map fin) sp := by
  unfold mean_absolute_scaled_error
  rw [absolute_scaled_error_fin _ _ _ _ hsp (by simp [hlen]) (by simpa using htr),
    absolute_scaled_error_fin _ _ _ _ hsp hlen htr,
    maseListQ_scale k hk]

/-- Witness for C4 at k=2, y_train=[3,5], y_true=[4], y_estimated=[6], m=1. -/
theorem mase_scale_invariant_witness :
    ((2 : ℚ) ≠ 0 ∧ 1 ≤ 1 ∧ 1 < ([(3 : ℚ), (5 : ℚ)] : List ℚ).length ∧
      ([(4 : ℚ)] : List ℚ).length = ([(6 : ℚ)] : List ℚ).length) ∧
    mean_absolute_scaled_error
        ((([(3 : ℚ), (5 : ℚ)] : List ℚ).map (fun q => (2 : ℚ) * q)).map fin)
        ((([(4 : ℚ)] : List ℚ).map (fun q => (2 : ℚ) * q)).map fin)
        ((([(6 : ℚ)] : List ℚ).map (fun q => (2 : ℚ) * q)).map fin) 1
      = mean_absolute_scaled_error (([(3 : ℚ), (5 : ℚ)] : List ℚ).map fin)
          (([(4 : ℚ)] : List ℚ).map fin) (([(6 : ℚ)] : List ℚ).map fin) 1 :=
  ⟨⟨by norm_num, le_refl 1, by norm_num, rfl⟩,
    mase_scale_invariant 2 (by norm_num) [(3 : ℚ), (5 : ℚ)] [(4 : ℚ)] [(6 : ℚ)] 1
      (le_refl 1) (by norm_num) rfl⟩
